import Mathlib

/-!
Shallow embedding of the opencode notification plugin
(src/internals.ts and src/index.ts) in Lean 4.

The TypeScript keys "session.idle", "permission.updated" and
"session.error" are not valid Lean field names; they are embedded as the
fields sessionIdle, permissionUpdated and sessionError throughout.
-/

namespace Notif

/-- Embeds interface NotificationEventConfig (internals.ts lines 9-12):
per-category enabled flag and message text. -/
structure NotificationEventConfig where
  enabled : Bool
  message : String
deriving Repr, DecidableEq

/-- Embeds the events record of NotificationConfig (internals.ts lines
17-21): the fixed three categories. -/
structure NotificationEvents where
  sessionIdle : NotificationEventConfig
  permissionUpdated : NotificationEventConfig
  sessionError : NotificationEventConfig
deriving Repr, DecidableEq

/-- Embeds interface NotificationConfig (internals.ts lines 14-22). -/
structure NotificationConfig where
  enabled : Bool
  itermIntegrationEnabled : Bool
  events : NotificationEvents
deriving Repr, DecidableEq

/-- Embeds DEFAULT_CONFIG (internals.ts lines 24-41). -/
def DEFAULT_CONFIG : NotificationConfig :=
  { enabled := true
    itermIntegrationEnabled := true
    events :=
      { sessionIdle := { enabled := true, message := "Session completed" }
        permissionUpdated := { enabled := true, message := "Permission needed" }
        sessionError := { enabled := true, message := "Error occurred" } } }

/-- Embeds the per-category part of a user-supplied layer, typed as in
TypeScript: each field of NotificationEventConfig optional
(a missing field is none). -/
structure EventConfigLayer where
  enabled : Option Bool
  message : Option String
deriving Repr, DecidableEq

/-- Embeds the events record of a user layer: each of the three category
entries may be missing. -/
structure EventsLayer where
  sessionIdle : Option EventConfigLayer
  permissionUpdated : Option EventConfigLayer
  sessionError : Option EventConfigLayer
deriving Repr, DecidableEq

/-- Embeds the type of a user-supplied layer
(TypeScript type of mergeConfig second argument, internals.ts line 126):
every field of NotificationConfig optional, recursively. -/
structure ConfigLayer where
  enabled : Option Bool
  itermIntegrationEnabled : Option Bool
  events : Option EventsLayer
deriving Repr, DecidableEq

/-- The empty layer: a parsed empty JSON object with no field present. -/
def ConfigLayer.empty : ConfigLayer :=
  { enabled := none, itermIntegrationEnabled := none, events := none }

/-- Embeds the per-category spread
  ( ...defaults.events[k], ...user.events?.[k] )
of mergeConfig (internals.ts lines 132-143): a field of the user category
entry overrides when present, otherwise the default field stands; an
absent or missing category entry contributes nothing. -/
def mergeEventConfig (d : NotificationEventConfig) (u : Option EventConfigLayer) :
    NotificationEventConfig :=
  match u with
  | none => d
  | some c =>
    { enabled := c.enabled.getD d.enabled
      message := c.message.getD d.message }

/-- Embeds mergeConfig (internals.ts lines 124-146): top-level fields by
nullish coalescing, categories by per-field spread over the defaults. -/
def mergeConfig (defaults : NotificationConfig) (user : ConfigLayer) :
    NotificationConfig :=
  { enabled := user.enabled.getD defaults.enabled
    itermIntegrationEnabled :=
      user.itermIntegrationEnabled.getD defaults.itermIntegrationEnabled
    events :=
      { sessionIdle :=
          mergeEventConfig defaults.events.sessionIdle
            (user.events.bind (·.sessionIdle))
        permissionUpdated :=
          mergeEventConfig defaults.events.permissionUpdated
            (user.events.bind (·.permissionUpdated))
        sessionError :=
          mergeEventConfig defaults.events.sessionError
            (user.events.bind (·.sessionError)) } }

/-- Layer getter for the nested field events.sessionIdle.enabled, in the
sense of: the layer explicitly sets that field. -/
def ConfigLayer.sessionIdleEnabled (l : ConfigLayer) : Option Bool :=
  l.events.bind fun e => e.sessionIdle.bind (·.enabled)

/-- Layer getter for the nested field events.sessionIdle.message. -/
def ConfigLayer.sessionIdleMessage (l : ConfigLayer) : Option String :=
  l.events.bind fun e => e.sessionIdle.bind (·.message)

/-- Layer getter for the nested field events.permissionUpdated.enabled. -/
def ConfigLayer.permissionUpdatedEnabled (l : ConfigLayer) : Option Bool :=
  l.events.bind fun e => e.permissionUpdated.bind (·.enabled)

/-- Layer getter for the nested field events.permissionUpdated.message. -/
def ConfigLayer.permissionUpdatedMessage (l : ConfigLayer) : Option String :=
  l.events.bind fun e => e.permissionUpdated.bind (·.message)

/-- Layer getter for the nested field events.sessionError.enabled. -/
def ConfigLayer.sessionErrorEnabled (l : ConfigLayer) : Option Bool :=
  l.events.bind fun e => e.sessionError.bind (·.enabled)

/-- Layer getter for the nested field events.sessionError.message. -/
def ConfigLayer.sessionErrorMessage (l : ConfigLayer) : Option String :=
  l.events.bind fun e => e.sessionError.bind (·.message)

/-- Embeds loadConfig (index.ts lines 118-136), with the I/O collaborators
abstracted: globalConfigDir is the result of getGlobalConfigDir(client),
and readFileAt models loadConfigFile — it returns the parsed layer at a
path, or none when the file is missing or invalid. The path computations
and the fold defaults <- global <- project follow the source line by
line. -/
def loadConfig (globalConfigDir : String)
    (readFileAt : String → Option ConfigLayer) (directory : String) :
    NotificationConfig :=
  let globalConfigPath :=
    if globalConfigDir ≠ "" then globalConfigDir ++ "/notification.json" else ""
  let projectConfigPath := directory ++ "/.opencode/notification.json"
  let globalConfig :=
    if globalConfigPath ≠ "" then readFileAt globalConfigPath else none
  let projectConfig := readFileAt projectConfigPath
  let config := DEFAULT_CONFIG
  let config := match globalConfig with
    | some g => mergeConfig config g
    | none => config
  let config := match projectConfig with
    | some p => mergeConfig config p
    | none => config
  config

/-- The list of paths loadConfig (index.ts lines 118-136) passes to
loadConfigFile, in call order: the global path only when the global
config directory is non-empty, then the project path. -/
def loadConfigReads (globalConfigDir directory : String) : List String :=
  (if globalConfigDir ≠ "" then [globalConfigDir ++ "/notification.json"] else [])
    ++ [directory ++ "/.opencode/notification.json"]

/-- Embeds isITerm2 (internals.ts lines 151-153), with the process
environment abstracted: termProgram is the value of the environment
variable TERM_PROGRAM, none when unset. -/
def isITerm2 (termProgram : Option String) : Bool :=
  termProgram == some "iTerm.app"

/-- Embeds notify (internals.ts lines 171-182) as a pure function from
its options and the TERM_PROGRAM value to the byte string written to
standard output. -/
def notify (title message : String) (itermIntegrationEnabled : Bool)
    (termProgram : Option String) : String :=
  let fullMessage := title ++ " - " ++ message
  if itermIntegrationEnabled && isITerm2 termProgram then
    "\x1b]9;" ++ fullMessage ++ "\x07"
  else
    "\x07"

/-- An incoming host event as the handler reads it (index.ts lines
219-272): its type string, properties.sessionID, and properties.title
(none when the payload has no title). -/
structure Event where
  type : String
  sessionID : String
  title : Option String
deriving Repr, DecidableEq

/-- Outcome of the remote call client.session.get (index.ts line 232):
failure is a rejected promise; success carries response.data?.title,
none when data or title is missing. -/
inductive LookupResult where
  | failure
  | success (title : Option String)
deriving Repr, DecidableEq

/-- The session title the handler ends up with (index.ts lines 229-238):
initialized to "Session" and replaced only when the lookup succeeds and
response.data?.title is truthy, i.e. a non-empty string. -/
def sessionTitle (lookup : LookupResult) : String :=
  match lookup with
  | .success (some t) => if t == "" then "Session" else t
  | _ => "Session"

/-- Embeds the event callback of NotificationPlugin (index.ts lines
219-272) as a pure function returning the list of byte strings written
to standard output while handling one event. The remote session lookup
and the TERM_PROGRAM value are passed as arguments. -/
def handleEvent (config : NotificationConfig) (event : Event)
    (lookup : LookupResult) (termProgram : Option String) : List String :=
  if !config.enabled then []
  else if event.type == "session.idle" then
    let eventConfig := config.events.sessionIdle
    if !eventConfig.enabled then []
    else
      let title := sessionTitle lookup
      [notify "OpenCode" (eventConfig.message ++ ": " ++ title)
        config.itermIntegrationEnabled termProgram]
  else if event.type == "permission.updated" then
    let eventConfig := config.events.permissionUpdated
    if !eventConfig.enabled then []
    else
      let permissionTitle := event.title.getD "Unknown"
      [notify "OpenCode" (eventConfig.message ++ ": " ++ permissionTitle)
        config.itermIntegrationEnabled termProgram]
  else if event.type == "session.error" then
    let eventConfig := config.events.sessionError
    if !eventConfig.enabled then []
    else
      [notify "OpenCode" eventConfig.message
        config.itermIntegrationEnabled termProgram]
  else []

/-- Escapes a string the way JSON.stringify quotes it, for the characters
that can occur in the configs this plugin serializes (it only ever
serializes DEFAULT_CONFIG, whose strings are plain printable text). -/
def jsonEscapeChar (c : Char) : String :=
  if c = '\\' then "\\\\"
  else if c = '\"' then "\\\""
  else if c = '\n' then "\\n"
  else if c = '\r' then "\\r"
  else if c = '\t' then "\\t"
  else String.singleton c

/-- A JSON string literal as JSON.stringify renders it. -/
def jsonStringLit (s : String) : String :=
  "\"" ++ String.join (s.toList.map jsonEscapeChar) ++ "\""

/-- A JSON boolean literal. -/
def jsonBool (b : Bool) : String :=
  if b then "true" else "false"

/-- The JSON.stringify(c, null, 2) rendering of one category entry, with
ind the indentation of its closing brace. -/
def serializeEventConfig (ind : String) (c : NotificationEventConfig) : String :=
  "\x7b\n" ++ ind ++ "  \"enabled\": " ++ jsonBool c.enabled ++ ",\n"
    ++ ind ++ "  \"message\": " ++ jsonStringLit c.message ++ "\n" ++ ind ++ "\x7d"

/-- The JSON.stringify(config, null, 2) rendering of a whole config, keys
in declaration order, two-space indent, as ensureGlobalConfig
(internals.ts line 84) produces it. -/
def serializeConfig (c : NotificationConfig) : String :=
  "\x7b\n  \"enabled\": " ++ jsonBool c.enabled
    ++ ",\n  \"itermIntegrationEnabled\": " ++ jsonBool c.itermIntegrationEnabled
    ++ ",\n  \"events\": \x7b\n    \"session.idle\": "
    ++ serializeEventConfig "    " c.events.sessionIdle
    ++ ",\n    \"permission.updated\": "
    ++ serializeEventConfig "    " c.events.permissionUpdated
    ++ ",\n    \"session.error\": "
    ++ serializeEventConfig "    " c.events.sessionError
    ++ "\n  \x7d\n\x7d"

/-- A file-system state for ensureGlobalConfig: the files (path, content),
the directories known to exist, and whether the mkdir and Bun.write calls
would succeed or throw. Exceptions thrown by I/O calls are caught by the
try block; effects of calls that already completed persist. -/
structure FS where
  files : List (String × String)
  dirs : List String
  mkdirOk : Bool
  writeOk : Bool
deriving Repr, DecidableEq

/-- The content stored at a path, none when no file exists there. -/
def FS.readFile (fs : FS) (path : String) : Option String :=
  (fs.files.find? (fun e => e.1 == path)).map (·.2)

/-- Embeds ensureGlobalConfig (internals.ts lines 72-88) with the homedir
collaborator abstracted: globalConfigDir is the value of
getGlobalConfigDir(). Returns the file system after the call: early
return when the file exists; otherwise mkdir recursive then write of the
pretty-printed defaults with a trailing newline; a throwing call is
caught, keeping the effects of the calls before it. -/
def ensureGlobalConfig (globalConfigDir : String) (fs : FS) : FS :=
  let globalConfigPath := globalConfigDir ++ "/notification.json"
  if (fs.readFile globalConfigPath).isSome then fs
  else if !fs.mkdirOk then fs
  else
    let fsAfterMkdir := { fs with dirs := globalConfigDir :: fs.dirs }
    if !fs.writeOk then fsAfterMkdir
    else { fsAfterMkdir with
            files := (globalConfigPath, serializeConfig DEFAULT_CONFIG ++ "\n")
              :: fs.files }

/-!
Runtime-level model of the merge. JSON.parse can produce null for any
field, which the TypeScript type Partial of NotificationConfig does not
express. At that level a present key must be distinguished from a key
present with value null: the nullish-coalescing operator treats null like
an absent key, while object spread copies a null value. The RT structures
mirror the Option-typed layers above with that distinction added.
-/

/-- A present JSON value for a field of type α: JSON null or a proper
value. An absent key is Option.none around this type. -/
inductive JField (α : Type) where
  | jnull
  | jval (a : α)
deriving Repr, DecidableEq

/-- The JavaScript nullish-coalescing operator u ?? d on a field read u
(none when the key is absent): null and absent both fall through. -/
def nullish {α : Type} (u : Option (JField α)) (d : JField α) : JField α :=
  match u with
  | some (.jval a) => .jval a
  | _ => d

/-- One field of an object-literal spread: a key present in the higher
object overrides even when its value is null; an absent key keeps the
value of the lower object. -/
def spreadField {α : Type} (d : JField α) (u : Option (JField α)) : JField α :=
  u.getD d

/-- A category entry of a parsed user layer at runtime. -/
structure RTEventConfigLayer where
  enabled : Option (JField Bool)
  message : Option (JField String)
deriving Repr, DecidableEq

/-- The events record of a parsed user layer at runtime. -/
structure RTEventsLayer where
  sessionIdle : Option (JField RTEventConfigLayer)
  permissionUpdated : Option (JField RTEventConfigLayer)
  sessionError : Option (JField RTEventConfigLayer)
deriving Repr, DecidableEq

/-- A whole parsed user layer at runtime. -/
structure RTConfigLayer where
  enabled : Option (JField Bool)
  itermIntegrationEnabled : Option (JField Bool)
  events : Option (JField RTEventsLayer)
deriving Repr, DecidableEq

/-- A merged category entry at runtime: the keys are always present
(the defaults supply them) but a value may be null. -/
structure RTEventConfig where
  enabled : JField Bool
  message : JField String
deriving Repr, DecidableEq

/-- The merged events record at runtime. -/
structure RTEvents where
  sessionIdle : RTEventConfig
  permissionUpdated : RTEventConfig
  sessionError : RTEventConfig
deriving Repr, DecidableEq

/-- A merged config at runtime. -/
structure RTConfig where
  enabled : JField Bool
  itermIntegrationEnabled : JField Bool
  events : RTEvents
deriving Repr, DecidableEq

/-- The optional chain user.events?.[k] (internals.ts lines 134, 138,
142): undefined when events is absent or null, otherwise the selected
category entry. -/
def rtCategory (events : Option (JField RTEventsLayer))
    (sel : RTEventsLayer → Option (JField RTEventConfigLayer)) :
    Option (JField RTEventConfigLayer) :=
  match events with
  | some (.jval e) => sel e
  | _ => none

/-- The per-category spread ( ...d, ...u ) at runtime: spreading an
absent or null entry contributes nothing; spreading an object copies
every present key, null values included. -/
def rtMergeEventConfig (d : RTEventConfig)
    (u : Option (JField RTEventConfigLayer)) : RTEventConfig :=
  match u with
  | some (.jval c) =>
    { enabled := spreadField d.enabled c.enabled
      message := spreadField d.message c.message }
  | _ => d

/-- Embeds mergeConfig (internals.ts lines 124-146) at the JavaScript
runtime level, where null is distinguished from an absent key: the two
top-level fields use the nullish-coalescing operator, the category fields
use object spread. -/
def mergeConfigJS (defaults : RTConfig) (user : RTConfigLayer) : RTConfig :=
  { enabled := nullish user.enabled defaults.enabled
    itermIntegrationEnabled :=
      nullish user.itermIntegrationEnabled defaults.itermIntegrationEnabled
    events :=
      { sessionIdle :=
          rtMergeEventConfig defaults.events.sessionIdle
            (rtCategory user.events (·.sessionIdle))
        permissionUpdated :=
          rtMergeEventConfig defaults.events.permissionUpdated
            (rtCategory user.events (·.permissionUpdated))
        sessionError :=
          rtMergeEventConfig defaults.events.sessionError
            (rtCategory user.events (·.sessionError)) } }

/-- DEFAULT_CONFIG as a runtime value: every key present with a proper
value. -/
def DEFAULT_CONFIG_RT : RTConfig :=
  { enabled := .jval true
    itermIntegrationEnabled := .jval true
    events :=
      { sessionIdle := { enabled := .jval true, message := .jval "Session completed" }
        permissionUpdated := { enabled := .jval true, message := .jval "Permission needed" }
        sessionError := { enabled := .jval true, message := .jval "Error occurred" } } }

/-- Setter used to state that other categories are unaffected by the
sessionIdle flag: the config with events.sessionIdle.enabled replaced. -/
def setSessionIdleEnabled (cfg : NotificationConfig) (b : Bool) : NotificationConfig :=
  { cfg with events := { cfg.events with
      sessionIdle := { cfg.events.sessionIdle with enabled := b } } }

/-- The config with events.permissionUpdated.enabled replaced. -/
def setPermissionUpdatedEnabled (cfg : NotificationConfig) (b : Bool) : NotificationConfig :=
  { cfg with events := { cfg.events with
      permissionUpdated := { cfg.events.permissionUpdated with enabled := b } } }

/-- The config with events.sessionError.enabled replaced. -/
def setSessionErrorEnabled (cfg : NotificationConfig) (b : Bool) : NotificationConfig :=
  { cfg with events := { cfg.events with
      sessionError := { cfg.events.sessionError with enabled := b } } }

/-!
Helper lemmas: each merged field in terms of the layer getters.
-/

theorem mergeConfig_enabled (d : NotificationConfig) (u : ConfigLayer) :
    (mergeConfig d u).enabled = u.enabled.getD d.enabled := rfl

theorem mergeConfig_itermIntegrationEnabled (d : NotificationConfig) (u : ConfigLayer) :
    (mergeConfig d u).itermIntegrationEnabled =
      u.itermIntegrationEnabled.getD d.itermIntegrationEnabled := rfl

theorem mergeConfig_sessionIdle_enabled (d : NotificationConfig) (u : ConfigLayer) :
    (mergeConfig d u).events.sessionIdle.enabled =
      u.sessionIdleEnabled.getD d.events.sessionIdle.enabled := by
  rcases u with ⟨e, i, _ | ⟨_ | ⟨en, me⟩, pu, se⟩⟩ <;> rfl

theorem mergeConfig_sessionIdle_message (d : NotificationConfig) (u : ConfigLayer) :
    (mergeConfig d u).events.sessionIdle.message =
      u.sessionIdleMessage.getD d.events.sessionIdle.message := by
  rcases u with ⟨e, i, _ | ⟨_ | ⟨en, me⟩, pu, se⟩⟩ <;> rfl

theorem mergeConfig_permissionUpdated_enabled (d : NotificationConfig) (u : ConfigLayer) :
    (mergeConfig d u).events.permissionUpdated.enabled =
      u.permissionUpdatedEnabled.getD d.events.permissionUpdated.enabled := by
  rcases u with ⟨e, i, _ | ⟨si, _ | ⟨en, me⟩, se⟩⟩ <;> rfl

theorem mergeConfig_permissionUpdated_message (d : NotificationConfig) (u : ConfigLayer) :
    (mergeConfig d u).events.permissionUpdated.message =
      u.permissionUpdatedMessage.getD d.events.permissionUpdated.message := by
  rcases u with ⟨e, i, _ | ⟨si, _ | ⟨en, me⟩, se⟩⟩ <;> rfl

theorem mergeConfig_sessionError_enabled (d : NotificationConfig) (u : ConfigLayer) :
    (mergeConfig d u).events.sessionError.enabled =
      u.sessionErrorEnabled.getD d.events.sessionError.enabled := by
  rcases u with ⟨e, i, _ | ⟨si, pu, _ | ⟨en, me⟩⟩⟩ <;> rfl

theorem mergeConfig_sessionError_message (d : NotificationConfig) (u : ConfigLayer) :
    (mergeConfig d u).events.sessionError.message =
      u.sessionErrorMessage.getD d.events.sessionError.message := by
  rcases u with ⟨e, i, _ | ⟨si, pu, _ | ⟨en, me⟩⟩⟩ <;> rfl

/-- C1 counterexample: the claim asserts every merge result has non-empty
category messages for all partial layers, but the layer that sets
events.sessionIdle.message to the empty string (a legal partial layer)
makes the merged sessionIdle message empty. -/
theorem merge_totality_counterexample :
    (mergeConfig (mergeConfig DEFAULT_CONFIG ConfigLayer.empty)
      { enabled := none, itermIntegrationEnabled := none,
        events := some
          { sessionIdle := some { enabled := none, message := some "" },
            permissionUpdated := none,
            sessionError := none } }).events.sessionIdle.message = "" := by
  decide

/-- C1 (amended): merge(merge(DEFAULT_CONFIG, L1), L2) is a total
NotificationConfig by the type of mergeConfig — all three fixed
categories present with Boolean and String fields — and each category
message is non-empty provided every message a layer sets is non-empty
(as the messages of DEFAULT_CONFIG are). -/
theorem merge_totality (L1 L2 : ConfigLayer)
    (h1a : ∀ m, L1.sessionIdleMessage = some m → m ≠ "")
    (h1b : ∀ m, L1.permissionUpdatedMessage = some m → m ≠ "")
    (h1c : ∀ m, L1.sessionErrorMessage = some m → m ≠ "")
    (h2a : ∀ m, L2.sessionIdleMessage = some m → m ≠ "")
    (h2b : ∀ m, L2.permissionUpdatedMessage = some m → m ≠ "")
    (h2c : ∀ m, L2.sessionErrorMessage = some m → m ≠ "") :
    (mergeConfig (mergeConfig DEFAULT_CONFIG L1) L2).events.sessionIdle.message ≠ ""
    ∧ (mergeConfig (mergeConfig DEFAULT_CONFIG L1) L2).events.permissionUpdated.message ≠ ""
    ∧ (mergeConfig (mergeConfig DEFAULT_CONFIG L1) L2).events.sessionError.message ≠ "" := by
  refine ⟨?_, ?_, ?_⟩
  · rw [mergeConfig_sessionIdle_message, mergeConfig_sessionIdle_message]
    cases hL2 : L2.sessionIdleMessage with
    | some m => simpa using h2a m hL2
    | none =>
      cases hL1 : L1.sessionIdleMessage with
      | some m => simpa using h1a m hL1
      | none => simp [DEFAULT_CONFIG]
  · rw [mergeConfig_permissionUpdated_message, mergeConfig_permissionUpdated_message]
    cases hL2 : L2.permissionUpdatedMessage with
    | some m => simpa using h2b m hL2
    | none =>
      cases hL1 : L1.permissionUpdatedMessage with
      | some m => simpa using h1b m hL1
      | none => simp [DEFAULT_CONFIG]
  · rw [mergeConfig_sessionError_message, mergeConfig_sessionError_message]
    cases hL2 : L2.sessionErrorMessage with
    | some m => simpa using h2c m hL2
    | none =>
      cases hL1 : L1.sessionErrorMessage with
      | some m => simpa using h1c m hL1
      | none => simp [DEFAULT_CONFIG]

/-- C1 witness: the amended theorem applied to two empty layers. -/
theorem merge_totality_witness :
    (mergeConfig (mergeConfig DEFAULT_CONFIG ConfigLayer.empty)
        ConfigLayer.empty).events.sessionIdle.message ≠ ""
    ∧ (mergeConfig (mergeConfig DEFAULT_CONFIG ConfigLayer.empty)
        ConfigLayer.empty).events.permissionUpdated.message ≠ ""
    ∧ (mergeConfig (mergeConfig DEFAULT_CONFIG ConfigLayer.empty)
        ConfigLayer.empty).events.sessionError.message ≠ "" :=
  merge_totality ConfigLayer.empty ConfigLayer.empty
    (fun m hm => by simp [ConfigLayer.empty, ConfigLayer.sessionIdleMessage] at hm)
    (fun m hm => by simp [ConfigLayer.empty, ConfigLayer.permissionUpdatedMessage] at hm)
    (fun m hm => by simp [ConfigLayer.empty, ConfigLayer.sessionErrorMessage] at hm)
    (fun m hm => by simp [ConfigLayer.empty, ConfigLayer.sessionIdleMessage] at hm)
    (fun m hm => by simp [ConfigLayer.empty, ConfigLayer.permissionUpdatedMessage] at hm)
    (fun m hm => by simp [ConfigLayer.empty, ConfigLayer.sessionErrorMessage] at hm)

/-- C3: for every field, a value set by L2 wins regardless of the
defaults and L1, and when neither L1 nor L2 sets the field the merged
value is the defaults value. Stated for arbitrary defaults D, which
covers the built-in DEFAULT_CONFIG. -/
theorem merge_precedence (D : NotificationConfig) (L1 L2 : ConfigLayer) :
    ((∀ v, L2.enabled = some v →
        (mergeConfig (mergeConfig D L1) L2).enabled = v)
      ∧ (L1.enabled = none → L2.enabled = none →
        (mergeConfig (mergeConfig D L1) L2).enabled = D.enabled))
    ∧ ((∀ v, L2.itermIntegrationEnabled = some v →
        (mergeConfig (mergeConfig D L1) L2).itermIntegrationEnabled = v)
      ∧ (L1.itermIntegrationEnabled = none → L2.itermIntegrationEnabled = none →
        (mergeConfig (mergeConfig D L1) L2).itermIntegrationEnabled =
          D.itermIntegrationEnabled))
    ∧ ((∀ v, L2.sessionIdleEnabled = some v →
        (mergeConfig (mergeConfig D L1) L2).events.sessionIdle.enabled = v)
      ∧ (L1.sessionIdleEnabled = none → L2.sessionIdleEnabled = none →
        (mergeConfig (mergeConfig D L1) L2).events.sessionIdle.enabled =
          D.events.sessionIdle.enabled))
    ∧ ((∀ v, L2.sessionIdleMessage = some v →
        (mergeConfig (mergeConfig D L1) L2).events.sessionIdle.message = v)
      ∧ (L1.sessionIdleMessage = none → L2.sessionIdleMessage = none →
        (mergeConfig (mergeConfig D L1) L2).events.sessionIdle.message =
          D.events.sessionIdle.message))
    ∧ ((∀ v, L2.permissionUpdatedEnabled = some v →
        (mergeConfig (mergeConfig D L1) L2).events.permissionUpdated.enabled = v)
      ∧ (L1.permissionUpdatedEnabled = none → L2.permissionUpdatedEnabled = none →
        (mergeConfig (mergeConfig D L1) L2).events.permissionUpdated.enabled =
          D.events.permissionUpdated.enabled))
    ∧ ((∀ v, L2.permissionUpdatedMessage = some v →
        (mergeConfig (mergeConfig D L1) L2).events.permissionUpdated.message = v)
      ∧ (L1.permissionUpdatedMessage = none → L2.permissionUpdatedMessage = none →
        (mergeConfig (mergeConfig D L1) L2).events.permissionUpdated.message =
          D.events.permissionUpdated.message))
    ∧ ((∀ v, L2.sessionErrorEnabled = some v →
        (mergeConfig (mergeConfig D L1) L2).events.sessionError.enabled = v)
      ∧ (L1.sessionErrorEnabled = none → L2.sessionErrorEnabled = none →
        (mergeConfig (mergeConfig D L1) L2).events.sessionError.enabled =
          D.events.sessionError.enabled))
    ∧ ((∀ v, L2.sessionErrorMessage = some v →
        (mergeConfig (mergeConfig D L1) L2).events.sessionError.message = v)
      ∧ (L1.sessionErrorMessage = none → L2.sessionErrorMessage = none →
        (mergeConfig (mergeConfig D L1) L2).events.sessionError.message =
          D.events.sessionError.message)) := by
  refine ⟨⟨?_, ?_⟩, ⟨?_, ?_⟩, ⟨?_, ?_⟩, ⟨?_, ?_⟩, ⟨?_, ?_⟩, ⟨?_, ?_⟩, ⟨?_, ?_⟩, ⟨?_, ?_⟩⟩
  · intro v h; rw [mergeConfig_enabled, h]; rfl
  · intro h1 h2; rw [mergeConfig_enabled, h2, mergeConfig_enabled, h1]; rfl
  · intro v h; rw [mergeConfig_itermIntegrationEnabled, h]; rfl
  · intro h1 h2
    rw [mergeConfig_itermIntegrationEnabled, h2,
      mergeConfig_itermIntegrationEnabled, h1]
    rfl
  · intro v h; rw [mergeConfig_sessionIdle_enabled, h]; rfl
  · intro h1 h2
    rw [mergeConfig_sessionIdle_enabled, h2, mergeConfig_sessionIdle_enabled, h1]
    rfl
  · intro v h; rw [mergeConfig_sessionIdle_message, h]; rfl
  · intro h1 h2
    rw [mergeConfig_sessionIdle_message, h2, mergeConfig_sessionIdle_message, h1]
    rfl
  · intro v h; rw [mergeConfig_permissionUpdated_enabled, h]; rfl
  · intro h1 h2
    rw [mergeConfig_permissionUpdated_enabled, h2,
      mergeConfig_permissionUpdated_enabled, h1]
    rfl
  · intro v h; rw [mergeConfig_permissionUpdated_message, h]; rfl
  · intro h1 h2
    rw [mergeConfig_permissionUpdated_message, h2,
      mergeConfig_permissionUpdated_message, h1]
    rfl
  · intro v h; rw [mergeConfig_sessionError_enabled, h]; rfl
  · intro h1 h2
    rw [mergeConfig_sessionError_enabled, h2, mergeConfig_sessionError_enabled, h1]
    rfl
  · intro v h; rw [mergeConfig_sessionError_message, h]; rfl
  · intro h1 h2
    rw [mergeConfig_sessionError_message, h2, mergeConfig_sessionError_message, h1]
    rfl

/-- C3 witness: with the built-in defaults, a global layer disabling the
plugin and a project layer overriding the sessionIdle message, the
project value wins for that field and an untouched field keeps its
default. -/
theorem merge_precedence_witness :
    (mergeConfig
        (mergeConfig DEFAULT_CONFIG
          { enabled := some false, itermIntegrationEnabled := none, events := none })
        { enabled := none, itermIntegrationEnabled := none,
          events := some
            { sessionIdle := some { enabled := none, message := some "All done" },
              permissionUpdated := none,
              sessionError := none } }).events.sessionIdle.message = "All done"
    ∧ (mergeConfig
        (mergeConfig DEFAULT_CONFIG
          { enabled := some false, itermIntegrationEnabled := none, events := none })
        { enabled := none, itermIntegrationEnabled := none,
          events := some
            { sessionIdle := some { enabled := none, message := some "All done" },
              permissionUpdated := none,
              sessionError := none } }).itermIntegrationEnabled =
        DEFAULT_CONFIG.itermIntegrationEnabled :=
  ⟨(merge_precedence DEFAULT_CONFIG
      { enabled := some false, itermIntegrationEnabled := none, events := none }
      { enabled := none, itermIntegrationEnabled := none,
        events := some
          { sessionIdle := some { enabled := none, message := some "All done" },
            permissionUpdated := none,
            sessionError := none } }).2.2.2.1.1 "All done" rfl,
    (merge_precedence DEFAULT_CONFIG
      { enabled := some false, itermIntegrationEnabled := none, events := none }
      { enabled := none, itermIntegrationEnabled := none,
        events := some
          { sessionIdle := some { enabled := none, message := some "All done" },
            permissionUpdated := none,
            sessionError := none } }).2.1.2 rfl rfl⟩

/-- C2 counterexample: the claim asserts every field, nested ones
included, resolves by nullish coalescing, so an explicit null in the
higher layer would fall through to the lower layer. But the category
fields are merged by object spread, which copies a present null key:
with the defaults setting events.sessionIdle.enabled to true and the
user layer setting it to null, the merged field is null, not true. -/
theorem merge_nullish_counterexample :
    (mergeConfigJS DEFAULT_CONFIG_RT
      { enabled := none, itermIntegrationEnabled := none,
        events := some (.jval
          { sessionIdle := some (.jval { enabled := some .jnull, message := none }),
            permissionUpdated := none,
            sessionError := none }) }).events.sessionIdle.enabled = .jnull
    ∧ DEFAULT_CONFIG_RT.events.sessionIdle.enabled = .jval true
    ∧ (JField.jnull : JField Bool) ≠ .jval true := by
  decide

/-- C2 (amended): the two top-level fields resolve by nullish coalescing
(a proper value overrides, null and absent both fall through), while the
nested category fields resolve by object spread: a key present in the
higher layer overrides with its value — even when that value is null —
and an absent key, or an absent or null category entry, falls through to
the lower layer. An explicit false or empty string still overrides. -/
theorem merge_field_resolution (d : RTConfig) (u : RTConfigLayer) :
    ((∀ v, u.enabled = some (.jval v) → (mergeConfigJS d u).enabled = .jval v)
      ∧ (u.enabled = none ∨ u.enabled = some .jnull →
        (mergeConfigJS d u).enabled = d.enabled))
    ∧ ((∀ v, u.itermIntegrationEnabled = some (.jval v) →
        (mergeConfigJS d u).itermIntegrationEnabled = .jval v)
      ∧ (u.itermIntegrationEnabled = none ∨ u.itermIntegrationEnabled = some .jnull →
        (mergeConfigJS d u).itermIntegrationEnabled = d.itermIntegrationEnabled))
    ∧ ((∀ c v, rtCategory u.events (·.sessionIdle) = some (.jval c) →
        c.enabled = some v → (mergeConfigJS d u).events.sessionIdle.enabled = v)
      ∧ (∀ c, rtCategory u.events (·.sessionIdle) = some (.jval c) →
        c.enabled = none →
        (mergeConfigJS d u).events.sessionIdle.enabled = d.events.sessionIdle.enabled)
      ∧ (∀ c v, rtCategory u.events (·.sessionIdle) = some (.jval c) →
        c.message = some v → (mergeConfigJS d u).events.sessionIdle.message = v)
      ∧ (∀ c, rtCategory u.events (·.sessionIdle) = some (.jval c) →
        c.message = none →
        (mergeConfigJS d u).events.sessionIdle.message = d.events.sessionIdle.message)
      ∧ (rtCategory u.events (·.sessionIdle) = none
          ∨ rtCategory u.events (·.sessionIdle) = some .jnull →
        (mergeConfigJS d u).events.sessionIdle = d.events.sessionIdle))
    ∧ ((∀ c v, rtCategory u.events (·.permissionUpdated) = some (.jval c) →
        c.enabled = some v → (mergeConfigJS d u).events.permissionUpdated.enabled = v)
      ∧ (∀ c, rtCategory u.events (·.permissionUpdated) = some (.jval c) →
        c.enabled = none →
        (mergeConfigJS d u).events.permissionUpdated.enabled =
          d.events.permissionUpdated.enabled)
      ∧ (∀ c v, rtCategory u.events (·.permissionUpdated) = some (.jval c) →
        c.message = some v → (mergeConfigJS d u).events.permissionUpdated.message = v)
      ∧ (∀ c, rtCategory u.events (·.permissionUpdated) = some (.jval c) →
        c.message = none →
        (mergeConfigJS d u).events.permissionUpdated.message =
          d.events.permissionUpdated.message)
      ∧ (rtCategory u.events (·.permissionUpdated) = none
          ∨ rtCategory u.events (·.permissionUpdated) = some .jnull →
        (mergeConfigJS d u).events.permissionUpdated = d.events.permissionUpdated))
    ∧ ((∀ c v, rtCategory u.events (·.sessionError) = some (.jval c) →
        c.enabled = some v → (mergeConfigJS d u).events.sessionError.enabled = v)
      ∧ (∀ c, rtCategory u.events (·.sessionError) = some (.jval c) →
        c.enabled = none →
        (mergeConfigJS d u).events.sessionError.enabled = d.events.sessionError.enabled)
      ∧ (∀ c v, rtCategory u.events (·.sessionError) = some (.jval c) →
        c.message = some v → (mergeConfigJS d u).events.sessionError.message = v)
      ∧ (∀ c, rtCategory u.events (·.sessionError) = some (.jval c) →
        c.message = none →
        (mergeConfigJS d u).events.sessionError.message = d.events.sessionError.message)
      ∧ (rtCategory u.events (·.sessionError) = none
          ∨ rtCategory u.events (·.sessionError) = some .jnull →
        (mergeConfigJS d u).events.sessionError = d.events.sessionError)) := by
  refine ⟨⟨?_, ?_⟩, ⟨?_, ?_⟩, ⟨?_, ?_, ?_, ?_, ?_⟩, ⟨?_, ?_, ?_, ?_, ?_⟩,
    ⟨?_, ?_, ?_, ?_, ?_⟩⟩
  · intro v h; simp [mergeConfigJS, nullish, h]
  · rintro (h | h) <;> simp [mergeConfigJS, nullish, h]
  · intro v h; simp [mergeConfigJS, nullish, h]
  · rintro (h | h) <;> simp [mergeConfigJS, nullish, h]
  · intro c v hc hv; simp [mergeConfigJS, rtMergeEventConfig, hc, spreadField, hv]
  · intro c hc hv; simp [mergeConfigJS, rtMergeEventConfig, hc, spreadField, hv]
  · intro c v hc hv; simp [mergeConfigJS, rtMergeEventConfig, hc, spreadField, hv]
  · intro c hc hv; simp [mergeConfigJS, rtMergeEventConfig, hc, spreadField, hv]
  · rintro (h | h) <;> simp [mergeConfigJS, rtMergeEventConfig, h]
  · intro c v hc hv; simp [mergeConfigJS, rtMergeEventConfig, hc, spreadField, hv]
  · intro c hc hv; simp [mergeConfigJS, rtMergeEventConfig, hc, spreadField, hv]
  · intro c v hc hv; simp [mergeConfigJS, rtMergeEventConfig, hc, spreadField, hv]
  · intro c hc hv; simp [mergeConfigJS, rtMergeEventConfig, hc, spreadField, hv]
  · rintro (h | h) <;> simp [mergeConfigJS, rtMergeEventConfig, h]
  · intro c v hc hv; simp [mergeConfigJS, rtMergeEventConfig, hc, spreadField, hv]
  · intro c hc hv; simp [mergeConfigJS, rtMergeEventConfig, hc, spreadField, hv]
  · intro c v hc hv; simp [mergeConfigJS, rtMergeEventConfig, hc, spreadField, hv]
  · intro c hc hv; simp [mergeConfigJS, rtMergeEventConfig, hc, spreadField, hv]
  · rintro (h | h) <;> simp [mergeConfigJS, rtMergeEventConfig, h]

/-- C2 witness: the amended theorem applied to the runtime defaults and a
concrete layer that sets enabled to false, leaves itermIntegrationEnabled
absent, sets events.sessionIdle.enabled to null and its message to the
empty string: the explicit false and the empty string override, the
absent field falls through, and the nested null is copied. -/
theorem merge_field_resolution_witness :
    (mergeConfigJS DEFAULT_CONFIG_RT
      { enabled := some (.jval false), itermIntegrationEnabled := none,
        events := some (.jval
          { sessionIdle := some (.jval
              { enabled := some .jnull, message := some (.jval "") }),
            permissionUpdated := none,
            sessionError := none }) }).enabled = .jval false
    ∧ (mergeConfigJS DEFAULT_CONFIG_RT
      { enabled := some (.jval false), itermIntegrationEnabled := none,
        events := some (.jval
          { sessionIdle := some (.jval
              { enabled := some .jnull, message := some (.jval "") }),
            permissionUpdated := none,
            sessionError := none }) }).itermIntegrationEnabled =
        DEFAULT_CONFIG_RT.itermIntegrationEnabled
    ∧ (mergeConfigJS DEFAULT_CONFIG_RT
      { enabled := some (.jval false), itermIntegrationEnabled := none,
        events := some (.jval
          { sessionIdle := some (.jval
              { enabled := some .jnull, message := some (.jval "") }),
            permissionUpdated := none,
            sessionError := none }) }).events.sessionIdle.enabled = .jnull
    ∧ (mergeConfigJS DEFAULT_CONFIG_RT
      { enabled := some (.jval false), itermIntegrationEnabled := none,
        events := some (.jval
          { sessionIdle := some (.jval
              { enabled := some .jnull, message := some (.jval "") }),
            permissionUpdated := none,
            sessionError := none }) }).events.sessionIdle.message = .jval "" :=
  ⟨(merge_field_resolution DEFAULT_CONFIG_RT
      { enabled := some (.jval false), itermIntegrationEnabled := none,
        events := some (.jval
          { sessionIdle := some (.jval
              { enabled := some .jnull, message := some (.jval "") }),
            permissionUpdated := none,
            sessionError := none }) }).1.1 false rfl,
    (merge_field_resolution DEFAULT_CONFIG_RT
      { enabled := some (.jval false), itermIntegrationEnabled := none,
        events := some (.jval
          { sessionIdle := some (.jval
              { enabled := some .jnull, message := some (.jval "") }),
            permissionUpdated := none,
            sessionError := none }) }).2.1.2 (Or.inl rfl),
    (merge_field_resolution DEFAULT_CONFIG_RT
      { enabled := some (.jval false), itermIntegrationEnabled := none,
        events := some (.jval
          { sessionIdle := some (.jval
              { enabled := some .jnull, message := some (.jval "") }),
            permissionUpdated := none,
            sessionError := none }) }).2.2.1.1
      { enabled := some .jnull, message := some (.jval "") } .jnull rfl rfl,
    (merge_field_resolution DEFAULT_CONFIG_RT
      { enabled := some (.jval false), itermIntegrationEnabled := none,
        events := some (.jval
          { sessionIdle := some (.jval
              { enabled := some .jnull, message := some (.jval "") }),
            permissionUpdated := none,
            sessionError := none }) }).2.2.1.2.2.1
      { enabled := some .jnull, message := some (.jval "") } (.jval "") rfl rfl⟩

/-- C4: with itermIntegrationEnabled true and TERM_PROGRAM exactly
"iTerm.app", notify writes ESC ] 9 ; title - message BEL; with the flag
false or a non-matching TERM_PROGRAM it writes the single bell byte,
whatever the message. -/
theorem notify_channel_selection (title message : String) (flag : Bool)
    (env : Option String) :
    (flag = true → env = some "iTerm.app" →
      notify title message flag env =
        "\x1b]9;" ++ title ++ " - " ++ message ++ "\x07")
    ∧ (flag = false ∨ env ≠ some "iTerm.app" →
      notify title message flag env = "\x07") := by
  constructor
  · intro hf he
    simp [notify, isITerm2, hf, he, String.append_assoc]
  · rintro (hf | he)
    · simp [notify, isITerm2, hf]
    · simp [notify, isITerm2, he]

/-- C4 witness: the theorem applied with matching environment and flag,
with a non-matching terminal, and with the flag off. -/
theorem notify_channel_selection_witness :
    notify "OpenCode" "Session completed: Build" true (some "iTerm.app")
      = "\x1b]9;" ++ "OpenCode" ++ " - " ++ "Session completed: Build" ++ "\x07"
    ∧ notify "OpenCode" "Session completed: Build" true (some "Apple_Terminal") = "\x07"
    ∧ notify "OpenCode" "Session completed: Build" false (some "iTerm.app") = "\x07" :=
  ⟨(notify_channel_selection "OpenCode" "Session completed: Build" true
      (some "iTerm.app")).1 rfl rfl,
    (notify_channel_selection "OpenCode" "Session completed: Build" true
      (some "Apple_Terminal")).2 (Or.inr (by decide)),
    (notify_channel_selection "OpenCode" "Session completed: Build" false
      (some "iTerm.app")).2 (Or.inl rfl)⟩

/-- C5: with the master switch off the handler emits nothing for any
event; with one category switched off the handler emits nothing for that
category, and the handling of events of the other categories does not
depend on that flag at all. -/
theorem gate_correctness (cfg : NotificationConfig) (ev : Event)
    (lookup : LookupResult) (env : Option String) :
    (cfg.enabled = false → handleEvent cfg ev lookup env = [])
    ∧ (cfg.events.sessionIdle.enabled = false → ev.type = "session.idle" →
      handleEvent cfg ev lookup env = [])
    ∧ (cfg.events.permissionUpdated.enabled = false → ev.type = "permission.updated" →
      handleEvent cfg ev lookup env = [])
    ∧ (cfg.events.sessionError.enabled = false → ev.type = "session.error" →
      handleEvent cfg ev lookup env = [])
    ∧ (∀ b, ev.type ≠ "session.idle" →
      handleEvent (setSessionIdleEnabled cfg b) ev lookup env =
        handleEvent cfg ev lookup env)
    ∧ (∀ b, ev.type ≠ "permission.updated" →
      handleEvent (setPermissionUpdatedEnabled cfg b) ev lookup env =
        handleEvent cfg ev lookup env)
    ∧ (∀ b, ev.type ≠ "session.error" →
      handleEvent (setSessionErrorEnabled cfg b) ev lookup env =
        handleEvent cfg ev lookup env) := by
  refine ⟨?_, ?_, ?_, ?_, ?_, ?_, ?_⟩
  · intro h; simp [handleEvent, h]
  · intro hc ht; simp [handleEvent, ht, hc]
  · intro hc ht; simp [handleEvent, ht, hc]
  · intro hc ht; simp [handleEvent, ht, hc]
  · intro b ht; simp [handleEvent, setSessionIdleEnabled, ht]
  · intro b ht; simp [handleEvent, setPermissionUpdatedEnabled, ht]
  · intro b ht; simp [handleEvent, setSessionErrorEnabled, ht]

/-- C5 witness: the theorem applied to the defaults with the master
switch off, to the defaults with the sessionIdle category off, and to a
sessionError event whose handling ignores the sessionIdle flag. -/
theorem gate_correctness_witness :
    handleEvent { DEFAULT_CONFIG with enabled := false }
      { type := "session.idle", sessionID := "s1", title := none } .failure none = []
    ∧ handleEvent (setSessionIdleEnabled DEFAULT_CONFIG false)
      { type := "session.idle", sessionID := "s1", title := none } .failure none = []
    ∧ handleEvent (setSessionIdleEnabled DEFAULT_CONFIG false)
      { type := "session.error", sessionID := "s1", title := none } .failure none =
      handleEvent DEFAULT_CONFIG
        { type := "session.error", sessionID := "s1", title := none } .failure none :=
  ⟨(gate_correctness { DEFAULT_CONFIG with enabled := false }
      { type := "session.idle", sessionID := "s1", title := none } .failure none).1 rfl,
    (gate_correctness (setSessionIdleEnabled DEFAULT_CONFIG false)
      { type := "session.idle", sessionID := "s1", title := none }
      .failure none).2.1 rfl rfl,
    (gate_correctness DEFAULT_CONFIG
      { type := "session.error", sessionID := "s1", title := none }
      .failure none).2.2.2.2.1 false (by decide)⟩

/-- C6: when the remote session lookup fails, an enabled sessionIdle
event still yields exactly one emission, composed with the placeholder
Session in place of the session title, and nothing propagates since
handleEvent is total. -/
theorem lookup_fallback (cfg : NotificationConfig) (ev : Event) (env : Option String)
    (hEnabled : cfg.enabled = true)
    (hCat : cfg.events.sessionIdle.enabled = true)
    (hType : ev.type = "session.idle") :
    handleEvent cfg ev .failure env =
      [notify "OpenCode" (cfg.events.sessionIdle.message ++ ": " ++ "Session")
        cfg.itermIntegrationEnabled env]
    ∧ (handleEvent cfg ev .failure env).length = 1
    ∧ sessionTitle .failure = "Session" := by
  have h1 : handleEvent cfg ev .failure env =
      [notify "OpenCode" (cfg.events.sessionIdle.message ++ ": " ++ "Session")
        cfg.itermIntegrationEnabled env] := by
    simp [handleEvent, hEnabled, hCat, hType, sessionTitle]
  exact ⟨h1, by rw [h1]; rfl, rfl⟩

/-- C6 witness: the theorem applied to the defaults, a sessionIdle event
and a failing lookup. -/
theorem lookup_fallback_witness :
    handleEvent DEFAULT_CONFIG
      { type := "session.idle", sessionID := "s1", title := none } .failure none =
      [notify "OpenCode" (DEFAULT_CONFIG.events.sessionIdle.message ++ ": " ++ "Session")
        DEFAULT_CONFIG.itermIntegrationEnabled none]
    ∧ (handleEvent DEFAULT_CONFIG
        { type := "session.idle", sessionID := "s1", title := none }
        .failure none).length = 1
    ∧ sessionTitle .failure = "Session" :=
  lookup_fallback DEFAULT_CONFIG
    { type := "session.idle", sessionID := "s1", title := none } none rfl rfl rfl

/-- C8: an event whose type is none of the three recognized identifiers
is handled as a silent no-op: no emission and no failure, handleEvent
being total. -/
theorem unknown_event_noop (cfg : NotificationConfig) (ev : Event)
    (lookup : LookupResult) (env : Option String)
    (h1 : ev.type ≠ "session.idle")
    (h2 : ev.type ≠ "permission.updated")
    (h3 : ev.type ≠ "session.error") :
    handleEvent cfg ev lookup env = [] := by
  simp [handleEvent, h1, h2, h3]

/-- C8 witness: the theorem applied to the defaults and an event of an
unrecognized type. -/
theorem unknown_event_noop_witness :
    handleEvent DEFAULT_CONFIG
      { type := "storage.write", sessionID := "s1", title := none }
      .failure (some "iTerm.app") = [] :=
  unknown_event_noop DEFAULT_CONFIG
    { type := "storage.write", sessionID := "s1", title := none }
    .failure (some "iTerm.app") (by decide) (by decide) (by decide)

/-- C9: with an empty global config directory, loadConfig reads only the
project path and the effective config is the merge of the defaults with
the project layer alone. -/
theorem empty_global_dir_skips (f : String → Option ConfigLayer) (directory : String) :
    loadConfigReads "" directory = [directory ++ "/.opencode/notification.json"]
    ∧ loadConfig "" f directory =
      (match f (directory ++ "/.opencode/notification.json") with
        | some p => mergeConfig DEFAULT_CONFIG p
        | none => DEFAULT_CONFIG) := by
  constructor
  · simp [loadConfigReads]
  · cases h : f (directory ++ "/.opencode/notification.json") <;>
      simp [loadConfig, h]

/-- C10: a lookup that succeeds with an empty title still composes the
message with the placeholder Session, exactly as a failed lookup or a
missing title does, while a non-empty title is used verbatim. -/
theorem empty_title_fallback (cfg : NotificationConfig) (ev : Event) (env : Option String)
    (hEnabled : cfg.enabled = true)
    (hCat : cfg.events.sessionIdle.enabled = true)
    (hType : ev.type = "session.idle") :
    sessionTitle (.success (some "")) = "Session"
    ∧ handleEvent cfg ev (.success (some "")) env =
      [notify "OpenCode" (cfg.events.sessionIdle.message ++ ": " ++ "Session")
        cfg.itermIntegrationEnabled env]
    ∧ sessionTitle .failure = "Session"
    ∧ sessionTitle (.success none) = "Session"
    ∧ (∀ t : String, t ≠ "" → sessionTitle (.success (some t)) = t) := by
  refine ⟨rfl, ?_, rfl, rfl, ?_⟩
  · simp [handleEvent, hEnabled, hCat, hType, sessionTitle]
  · intro t ht; simp [sessionTitle, ht]

/-- C10 witness: the theorem applied to the defaults and a sessionIdle
event with a lookup returning the empty title. -/
theorem empty_title_fallback_witness :
    sessionTitle (.success (some "")) = "Session"
    ∧ handleEvent DEFAULT_CONFIG
        { type := "session.idle", sessionID := "s1", title := none }
        (.success (some "")) none =
      [notify "OpenCode" (DEFAULT_CONFIG.events.sessionIdle.message ++ ": " ++ "Session")
        DEFAULT_CONFIG.itermIntegrationEnabled none]
    ∧ sessionTitle .failure = "Session"
    ∧ sessionTitle (.success none) = "Session"
    ∧ (∀ t : String, t ≠ "" → sessionTitle (.success (some t)) = t) :=
  empty_title_fallback DEFAULT_CONFIG
    { type := "session.idle", sessionID := "s1", title := none } none rfl rfl rfl

/-- C7 counterexample: the claim asserts any I/O failure leaves the
operation a silent no-op, but when mkdir succeeds and the write then
fails, the created directory persists: starting from an empty file
system, the state after the call differs from the state before, even
though no file was written. -/
theorem ensure_global_config_counterexample :
    ensureGlobalConfig "g"
        { files := [], dirs := [], mkdirOk := true, writeOk := false } ≠
      { files := [], dirs := [], mkdirOk := true, writeOk := false }
    ∧ (ensureGlobalConfig "g"
        { files := [], dirs := [], mkdirOk := true, writeOk := false }).dirs = ["g"]
    ∧ (ensureGlobalConfig "g"
        { files := [], dirs := [], mkdirOk := true, writeOk := false }).files = [] := by
  decide

/-- C7 (amended): when no file exists at the global path and both I/O
calls succeed, ensureGlobalConfig records the directory and writes the
pretty-printed serialized defaults with a trailing newline, leaving every
other file untouched; an existing file leaves the state entirely
unchanged whatever its content; a failing mkdir is a complete no-op, and
a failing write leaves all files unchanged — though the directory created
by the mkdir that already succeeded persists, so the failure case is
silent but not a literal no-op. -/
theorem ensure_global_config_spec (dir : String) (fs : FS) :
    ((fs.readFile (dir ++ "/notification.json")).isSome →
      ensureGlobalConfig dir fs = fs)
    ∧ (fs.readFile (dir ++ "/notification.json") = none → fs.mkdirOk = true →
      fs.writeOk = true →
      (ensureGlobalConfig dir fs).readFile (dir ++ "/notification.json") =
        some (serializeConfig DEFAULT_CONFIG ++ "\n")
      ∧ dir ∈ (ensureGlobalConfig dir fs).dirs
      ∧ (∀ p, p ≠ dir ++ "/notification.json" →
        (ensureGlobalConfig dir fs).readFile p = fs.readFile p))
    ∧ (fs.mkdirOk = false → ensureGlobalConfig dir fs = fs)
    ∧ (fs.writeOk = false → (ensureGlobalConfig dir fs).files = fs.files) := by
  refine ⟨?_, ?_, ?_, ?_⟩
  · intro h; simp [ensureGlobalConfig, h]
  · intro h hm hw
    have hn : (fs.readFile (dir ++ "/notification.json")).isSome = false := by
      simp [h]
    have hres : ensureGlobalConfig dir fs =
        { files := (dir ++ "/notification.json",
            serializeConfig DEFAULT_CONFIG ++ "\n") :: fs.files,
          dirs := dir :: fs.dirs, mkdirOk := fs.mkdirOk, writeOk := fs.writeOk } := by
      simp [ensureGlobalConfig, hn, hm, hw]
    refine ⟨?_, ?_, ?_⟩
    · rw [hres]; simp [FS.readFile, List.find?_cons]
    · rw [hres]; exact List.mem_cons_self _ _
    · intro p hp
      have hb : ((dir ++ "/notification.json") == p) = false := by
        simp [Ne.symm hp]
      rw [hres]; simp [FS.readFile, List.find?_cons, hb]
  · intro h; simp [ensureGlobalConfig, h]
  · intro h
    by_cases hex : (fs.readFile (dir ++ "/notification.json")).isSome
    · simp [ensureGlobalConfig, hex]
    · cases hm : fs.mkdirOk <;> simp [ensureGlobalConfig, hex, hm, h]

/-- C7 witness: the amended theorem applied to an empty file system with
both calls succeeding, and to a file system already holding a file at the
global path. -/
theorem ensure_global_config_witness :
    (ensureGlobalConfig "g"
        { files := [], dirs := [], mkdirOk := true, writeOk := true }).readFile
      ("g" ++ "/notification.json") = some (serializeConfig DEFAULT_CONFIG ++ "\n")
    ∧ "g" ∈ (ensureGlobalConfig "g"
        { files := [], dirs := [], mkdirOk := true, writeOk := true }).dirs
    ∧ ensureGlobalConfig "g"
        { files := [("g/notification.json", "junk")], dirs := [],
          mkdirOk := true, writeOk := true } =
      { files := [("g/notification.json", "junk")], dirs := [],
        mkdirOk := true, writeOk := true } :=
  ⟨((ensure_global_config_spec "g"
      { files := [], dirs := [], mkdirOk := true, writeOk := true }).2.1
      rfl rfl rfl).1,
    ((ensure_global_config_spec "g"
      { files := [], dirs := [], mkdirOk := true, writeOk := true }).2.1
      rfl rfl rfl).2.1,
    (ensure_global_config_spec "g"
      { files := [("g/notification.json", "junk")], dirs := [],
        mkdirOk := true, writeOk := true }).1 (by decide)⟩

end Notif
